import Mathlib

/-!
Shallow embedding of the Real-Time-Sensor-Fusion-Dashboard ML service
(`src/ml-service/src/anomaly_detector.py` and
`src/ml-service/src/websocket_client.py`).

Numbers are modelled as real numbers (the spec asks for the algorithmic
contract, not bit-identical floating point).  The third-party estimators
(`StandardScaler`, `IsolationForest`) are external collaborators: their
fitted state is modelled by the training snapshot they were last fitted
on, and the outcome of each library call (its decision value, or the fact
that it raised) is an explicit oracle argument to the operations, exactly
mirroring which fields of the Python object each code path mutates.
-/

namespace SensorFusion

/-- `deque(maxlen := cap)` append: push `x` at the tail, evicting from the
front once `cap` is exceeded. -/
def dequeAppend (cap : ℕ) (xs : List α) (x : α) : List α :=
  let ys := xs ++ [x]
  if cap < ys.length then ys.drop (ys.length - cap) else ys

/-- `np.mean` of a vector (division by zero yields 0, matching the total
extension of the partial numpy operation; it is never reached on live data). -/
noncomputable def npMean (xs : List ℝ) : ℝ := xs.sum / xs.length

/-- `np.std` of a vector: square root of the mean squared deviation
(population standard deviation, numpy's default `ddof = 0`). -/
noncomputable def npStd (xs : List ℝ) : ℝ :=
  Real.sqrt (npMean (xs.map fun x => (x - npMean xs) ^ 2))

/-- Column `j` of a row-major matrix (`historical_data[:, j]`). -/
def col (rows : List (List ℝ)) (j : ℕ) : List ℝ :=
  rows.map fun r => r.getD j 0

/-- Number of columns numpy infers for a row-major matrix. -/
def statDim (rows : List (List ℝ)) : ℕ := (rows.headD []).length

/-- Per-column means, `np.mean(X, axis=0)`. -/
noncomputable def colMeans (rows : List (List ℝ)) : List ℝ :=
  (List.range (statDim rows)).map fun j => npMean (col rows j)

/-- Per-column standard deviations, `np.std(X, axis=0)`. -/
noncomputable def colStds (rows : List (List ℝ)) : List ℝ :=
  (List.range (statDim rows)).map fun j => npStd (col rows j)

/-- The `1e-6` epsilon added to standard deviations to avoid division by
zero. -/
noncomputable def epsStd : ℝ := 1 / 1000000

/-- Maximum of a list of reals with base value 0 (`np.max` on the
z-score vector; the vector is nonempty on every live call). -/
noncomputable def listMax0 (xs : List ℝ) : ℝ := xs.foldr max 0

/-- Absolute z-scores of the query against the per-column statistics of the
historical rows (`np.abs((features[0] - means) / stds)`). -/
noncomputable def zScores (historical : List (List ℝ)) (features : List ℝ) : List ℝ :=
  (List.range (statDim historical)).map fun j =>
    |features.getD j 0 - npMean (col historical j)| / (npStd (col historical j) + epsStd)

/-- `AnomalyDetector._statistical_anomaly_score`: gate on the buffer size
(including the query, which the caller has already appended), drop the last
buffer row (the query itself), z-score the query against the rest, and map
the maximal z-score into `[0,1]` by `min (maxZ / 3) 1`. -/
noncomputable def statisticalAnomalyScore (buffer : List (List ℝ)) (features : List ℝ) : ℝ :=
  if buffer.length < 5 then 0
  else
    let historical := buffer.dropLast
    if historical.length = 0 then 0
    else min (listMax0 (zScores historical features) / 3) 1

/-- `AnomalyDetector._normalize_score`: logistic transform of the negated
decision value, clipped into `[0,1]` (`np.clip(x, 0.0, 1.0) = min (max x 0) 1`). -/
noncomputable def normalizeScore (decision_score : ℝ) : ℝ :=
  let shifted := -decision_score
  let normalized := 1 / (1 + Real.exp (-10 * shifted))
  min (max normalized 0) 1

/-- Outcome of the library calls inside `update_model`'s `try` block: either
everything succeeds, or an exception is raised at one of the call sites.  The
constructor records which fields were already mutated in place when the
exception fired (the Python code mutates `self.scaler`, `self.feature_means`,
`self.feature_stds`, `self.model` one after the other, with no rollback). -/
inductive FitOutcome
  | okAll
  | failAtScalerFit
  | failAtTransform
  | failAtModelFit
  | failAfterTrained
deriving DecidableEq

/-- Outcome of the scaler/ensemble calls inside `predict`'s trained-path
`try` block: the ensemble's decision value, or an exception. -/
inductive ScoreOutcome
  | ok (decision : ℝ)
  | fail

/-- State of `AnomalyDetector` (`__init__`).  `scaler_fit` / `model_fit`
record the training snapshot the corresponding third-party object was last
fitted on (`none` = still unfitted, as freshly constructed). -/
structure AnomalyDetector where
  buffer_size : ℕ
  threshold : ℝ
  data_buffer : List (List ℝ)
  scaler_fit : Option (List (List ℝ))
  model_fit : Option (List (List ℝ))
  is_trained : Bool
  feature_count : Option ℕ
  prediction_count : ℕ
  anomaly_count : ℕ
  anomaly_history : List ℝ
  feature_means : Option (List ℝ)
  feature_stds : Option (List ℝ)

/-- `AnomalyDetector.__init__(buffer_size, threshold)`. -/
def AnomalyDetector.init (buffer_size : ℕ) (threshold : ℝ) : AnomalyDetector where
  buffer_size := buffer_size
  threshold := threshold
  data_buffer := []
  scaler_fit := none
  model_fit := none
  is_trained := false
  feature_count := none
  prediction_count := 0
  anomaly_count := 0
  anomaly_history := []
  feature_means := none
  feature_stds := none

/-- `AnomalyDetector.update_model`, parameterized by the outcome of the
library calls in its `try` block.  Below 20 buffered samples it is an early
return; otherwise each failure constructor applies exactly the in-place
mutations performed before the exception, and the `except` handler finishes
with `is_trained = False` (`okAll` reaches `is_trained = True` and keeps it,
since the trailing logging calls also succeeded). -/
noncomputable def AnomalyDetector.update_model (s : AnomalyDetector) (o : FitOutcome) :
    AnomalyDetector :=
  if s.data_buffer.length < 20 then s
  else
    match o with
    | .okAll =>
        { s with scaler_fit := some s.data_buffer,
                 feature_means := some (colMeans s.data_buffer),
                 feature_stds := some (colStds s.data_buffer),
                 model_fit := some s.data_buffer,
                 is_trained := true }
    | .failAtScalerFit => { s with is_trained := false }
    | .failAtTransform =>
        { s with scaler_fit := some s.data_buffer, is_trained := false }
    | .failAtModelFit =>
        { s with scaler_fit := some s.data_buffer,
                 feature_means := some (colMeans s.data_buffer),
                 feature_stds := some (colStds s.data_buffer),
                 is_trained := false }
    | .failAfterTrained =>
        { s with scaler_fit := some s.data_buffer,
                 feature_means := some (colMeans s.data_buffer),
                 feature_stds := some (colStds s.data_buffer),
                 model_fit := some s.data_buffer,
                 is_trained := false }

/-- `self.data_buffer.append(features)` (bounded deque). -/
def AnomalyDetector.ingest (s : AnomalyDetector) (features : List ℝ) : AnomalyDetector :=
  { s with data_buffer := dequeAppend s.buffer_size s.data_buffer features }

/-- The conditional retrain inside `predict`:
`if not self.is_trained and len(self.data_buffer) >= self.buffer_size: self.update_model()`. -/
noncomputable def AnomalyDetector.afterAutoTrain (s : AnomalyDetector) (fo : FitOutcome) :
    AnomalyDetector :=
  if s.is_trained = false ∧ s.buffer_size ≤ s.data_buffer.length then s.update_model fo else s

/-- Body of `predict` after validation has passed (the query has been
appended to the buffer). -/
noncomputable def AnomalyDetector.predictBody (s : AnomalyDetector) (features : List ℝ)
    (fo : FitOutcome) (so : ScoreOutcome) : ℝ × AnomalyDetector :=
  let s2 := s.ingest features
  if s2.data_buffer.length < 20 then
    let score := statisticalAnomalyScore s2.data_buffer features
    (score, { s2 with anomaly_history := dequeAppend 100 s2.anomaly_history score })
  else
    let s3 := s2.afterAutoTrain fo
    if s3.is_trained then
      match so with
      | .ok d =>
          let score := 0.7 * normalizeScore d
                     + 0.3 * statisticalAnomalyScore s3.data_buffer features
          (score,
           { s3 with
               anomaly_history := dequeAppend 100 s3.anomaly_history score,
               anomaly_count :=
                 if s3.threshold < score then s3.anomaly_count + 1 else s3.anomaly_count })
      | .fail => (statisticalAnomalyScore s3.data_buffer features, s3)
    else
      let score := statisticalAnomalyScore s3.data_buffer features
      (score, { s3 with anomaly_history := dequeAppend 100 s3.anomaly_history score })

/-- `AnomalyDetector.predict`: bump the prediction counter, reject empty
vectors, lock in / check the feature dimension, then run the body.  Returns
the score together with the post-state. -/
noncomputable def AnomalyDetector.predict (s : AnomalyDetector) (features : List ℝ)
    (fo : FitOutcome) (so : ScoreOutcome) : ℝ × AnomalyDetector :=
  let s0 : AnomalyDetector := { s with prediction_count := s.prediction_count + 1 }
  if features.length = 0 then (0, s0)
  else
    match s0.feature_count with
    | none =>
        AnomalyDetector.predictBody { s0 with feature_count := some features.length }
          features fo so
    | some n =>
        if features.length ≠ n then (0, s0)
        else s0.predictBody features fo so

/-- `AnomalyDetector.reset`. -/
def AnomalyDetector.reset (s : AnomalyDetector) : AnomalyDetector :=
  { s with data_buffer := [], anomaly_history := [], is_trained := false,
           prediction_count := 0, anomaly_count := 0 }

/-- Return value of `AnomalyDetector.get_statistics`. -/
structure DetectorStats where
  is_trained : Bool
  prediction_count : ℕ
  anomaly_count : ℕ
  anomaly_rate : ℝ
  buffer_size : ℕ
  recent_avg_score : ℝ
  threshold : ℝ

/-- `AnomalyDetector.get_statistics`. -/
noncomputable def AnomalyDetector.get_statistics (s : AnomalyDetector) : DetectorStats where
  is_trained := s.is_trained
  prediction_count := s.prediction_count
  anomaly_count := s.anomaly_count
  anomaly_rate :=
    if 0 < s.prediction_count then (s.anomaly_count : ℝ) / s.prediction_count else 0
  buffer_size := s.data_buffer.length
  recent_avg_score :=
    if 0 < s.anomaly_history.length then npMean s.anomaly_history else 0
  threshold := s.threshold

/-- An inbound websocket frame as `_handle_message` sees it: a string that
fails `json.loads` (`malformed`), one that decodes to a non-object so the
subsequent `data.get` raises (`nonObject`), or a decoded object with its
optional `type` field and presence flags for `timestamp` / `orientation`. -/
inductive InboundFrame
  | malformed
  | nonObject
  | obj (msgType : Option String) (hasTimestamp : Bool) (hasOrientation : Bool)

/-- What `_handle_message` did with a frame.  Every constructor returns
control to the receive loop: the body is wrapped in `try/except`, so no
frame terminates the session. -/
inductive HandleAction
  | decodeErrorSkipped
  | connectionLogged
  | forwardedToHandler
  | ignoredUnknown
  | handlingErrorCaught
deriving DecidableEq

/-- `SensorWebSocketClient._handle_message` routing: JSON decode errors are
caught and skipped; a `type == "connection"` object is logged only; an
object carrying both `timestamp` and `orientation` is forwarded to the data
callback; anything else is ignored (unknown type, or a caught handling
error for non-object payloads). -/
def handleMessage : InboundFrame → HandleAction
  | .malformed => .decodeErrorSkipped
  | .nonObject => .handlingErrorCaught
  | .obj msgType hasTimestamp hasOrientation =>
    if msgType = some "connection" then .connectionLogged
    else if hasTimestamp && hasOrientation then .forwardedToHandler
    else .ignoredUnknown

/-! ### Basic bounds on the scoring primitives -/

lemma listMax0_nonneg (xs : List ℝ) : 0 ≤ listMax0 xs := by
  induction xs with
  | nil => simp [listMax0]
  | cons x xs ih =>
      simpa [listMax0] using Or.inr (by simpa [listMax0] using ih)

lemma statisticalAnomalyScore_nonneg (buffer : List (List ℝ)) (features : List ℝ) :
    0 ≤ statisticalAnomalyScore buffer features := by
  unfold statisticalAnomalyScore
  dsimp only
  split
  · exact le_refl 0
  · split
    · exact le_refl 0
    · exact le_min (div_nonneg (listMax0_nonneg _) (by norm_num)) zero_le_one

lemma statisticalAnomalyScore_le_one (buffer : List (List ℝ)) (features : List ℝ) :
    statisticalAnomalyScore buffer features ≤ 1 := by
  unfold statisticalAnomalyScore
  dsimp only
  split
  · exact zero_le_one
  · split
    · exact zero_le_one
    · exact min_le_right _ _

lemma normalizeScore_nonneg (d : ℝ) : 0 ≤ normalizeScore d := by
  unfold normalizeScore
  exact le_min (le_max_right _ _) zero_le_one

lemma normalizeScore_le_one (d : ℝ) : normalizeScore d ≤ 1 := by
  unfold normalizeScore
  exact min_le_right _ _

lemma blend_mem_Icc {a b : ℝ} (ha0 : 0 ≤ a) (ha1 : a ≤ 1) (hb0 : 0 ≤ b) (hb1 : b ≤ 1) :
    (0.7 * a + 0.3 * b) ∈ Set.Icc (0 : ℝ) 1 := by
  constructor <;> nlinarith

lemma predictBody_fst_mem (s : AnomalyDetector) (features : List ℝ)
    (fo : FitOutcome) (so : ScoreOutcome) :
    (s.predictBody features fo so).1 ∈ Set.Icc (0 : ℝ) 1 := by
  unfold AnomalyDetector.predictBody
  dsimp only
  split
  · exact ⟨statisticalAnomalyScore_nonneg _ _, statisticalAnomalyScore_le_one _ _⟩
  · split
    · cases so with
      | ok d =>
          exact blend_mem_Icc (normalizeScore_nonneg d) (normalizeScore_le_one d)
            (statisticalAnomalyScore_nonneg _ _) (statisticalAnomalyScore_le_one _ _)
      | fail =>
          exact ⟨statisticalAnomalyScore_nonneg _ _, statisticalAnomalyScore_le_one _ _⟩
    · exact ⟨statisticalAnomalyScore_nonneg _ _, statisticalAnomalyScore_le_one _ _⟩

/-- C1: for every detector state, feature vector and library behavior (any
buffer state, trained or untrained, and also when the trained scoring path
raises and falls back), the score returned by `predict` lies in `[0, 1]`. -/
theorem predict_score_mem_unit_interval (s : AnomalyDetector) (features : List ℝ)
    (fo : FitOutcome) (so : ScoreOutcome) :
    (s.predict features fo so).1 ∈ Set.Icc (0 : ℝ) 1 := by
  unfold AnomalyDetector.predict
  dsimp only
  split
  · exact ⟨le_refl 0, zero_le_one⟩
  · split
    · exact predictBody_fst_mem _ _ _ _
    · split
      · exact ⟨le_refl 0, zero_le_one⟩
      · exact predictBody_fst_mem _ _ _ _

/-- C5: once the feature dimension `n` has been recorded, any `predict`
call with a vector of a different length returns `0.0` and leaves the
sample buffer and the trained flag (and the rest of the model state)
unchanged. -/
theorem predict_dimension_mismatch_rejected (s : AnomalyDetector) (features : List ℝ)
    (fo : FitOutcome) (so : ScoreOutcome) (n : ℕ)
    (hn : s.feature_count = some n) (hlen : features.length ≠ n) :
    (s.predict features fo so).1 = 0 ∧
    (s.predict features fo so).2.data_buffer = s.data_buffer ∧
    (s.predict features fo so).2.is_trained = s.is_trained ∧
    (s.predict features fo so).2.anomaly_count = s.anomaly_count ∧
    (s.predict features fo so).2.anomaly_history = s.anomaly_history ∧
    (s.predict features fo so).2.feature_count = s.feature_count := by
  unfold AnomalyDetector.predict
  by_cases h0 : features.length = 0
  · simp [h0, hn]
  · simp [h0, hn, hlen]

/-- Witness for C5 at a concrete input: a detector locked to dimension 2
rejects a 3-dimensional vector. -/
theorem predict_dimension_mismatch_rejected_witness :
    ((AnomalyDetector.init 50 0.7).predict [1, 2] FitOutcome.okAll (ScoreOutcome.ok 0)).2.feature_count
        = some 2 ∧
    (let s := ((AnomalyDetector.init 50 0.7).predict [1, 2] FitOutcome.okAll (ScoreOutcome.ok 0)).2
     (s.predict [1, 2, 3] FitOutcome.okAll (ScoreOutcome.ok 0)).1 = 0 ∧
     (s.predict [1, 2, 3] FitOutcome.okAll (ScoreOutcome.ok 0)).2.data_buffer = s.data_buffer ∧
     (s.predict [1, 2, 3] FitOutcome.okAll (ScoreOutcome.ok 0)).2.is_trained = s.is_trained) := by
  have hfc : ((AnomalyDetector.init 50 0.7).predict [1, 2] FitOutcome.okAll
      (ScoreOutcome.ok 0)).2.feature_count = some 2 := by
    simp [AnomalyDetector.predict, AnomalyDetector.predictBody, AnomalyDetector.ingest,
      AnomalyDetector.init, dequeAppend]
  refine ⟨hfc, ?_, ?_, ?_⟩
  · exact (predict_dimension_mismatch_rejected _ [1, 2, 3] _ _ 2 hfc (by norm_num)).1
  · exact (predict_dimension_mismatch_rejected _ [1, 2, 3] _ _ 2 hfc (by norm_num)).2.1
  · exact (predict_dimension_mismatch_rejected _ [1, 2, 3] _ _ 2 hfc (by norm_num)).2.2.1

/-! ### State-preservation helper lemmas -/

lemma update_model_preserves (s : AnomalyDetector) (o : FitOutcome) :
    (s.update_model o).prediction_count = s.prediction_count ∧
    (s.update_model o).anomaly_count = s.anomaly_count ∧
    (s.update_model o).anomaly_history = s.anomaly_history ∧
    (s.update_model o).data_buffer = s.data_buffer ∧
    (s.update_model o).buffer_size = s.buffer_size ∧
    (s.update_model o).threshold = s.threshold ∧
    (s.update_model o).feature_count = s.feature_count := by
  unfold AnomalyDetector.update_model
  split
  · simp
  · cases o <;> simp

lemma afterAutoTrain_preserves (s : AnomalyDetector) (fo : FitOutcome) :
    (s.afterAutoTrain fo).prediction_count = s.prediction_count ∧
    (s.afterAutoTrain fo).anomaly_count = s.anomaly_count ∧
    (s.afterAutoTrain fo).anomaly_history = s.anomaly_history ∧
    (s.afterAutoTrain fo).data_buffer = s.data_buffer ∧
    (s.afterAutoTrain fo).buffer_size = s.buffer_size ∧
    (s.afterAutoTrain fo).threshold = s.threshold ∧
    (s.afterAutoTrain fo).feature_count = s.feature_count := by
  unfold AnomalyDetector.afterAutoTrain
  split
  · exact update_model_preserves s fo
  · simp

lemma predictBody_prediction_count (s : AnomalyDetector) (features : List ℝ)
    (fo : FitOutcome) (so : ScoreOutcome) :
    (s.predictBody features fo so).2.prediction_count = s.prediction_count := by
  unfold AnomalyDetector.predictBody
  dsimp only
  split
  · simp [AnomalyDetector.ingest]
  · split
    · cases so with
      | ok d =>
          dsimp only
          rw [(afterAutoTrain_preserves _ fo).1]
          simp [AnomalyDetector.ingest]
      | fail =>
          dsimp only
          rw [(afterAutoTrain_preserves _ fo).1]
          simp [AnomalyDetector.ingest]
    · dsimp only
      rw [(afterAutoTrain_preserves _ fo).1]
      simp [AnomalyDetector.ingest]

lemma predict_rejected_state (s : AnomalyDetector) (features : List ℝ)
    (fo : FitOutcome) (so : ScoreOutcome)
    (hrej : features.length = 0 ∨ ∃ n, s.feature_count = some n ∧ features.length ≠ n) :
    (s.predict features fo so).1 = 0 ∧
    (s.predict features fo so).2.data_buffer = s.data_buffer ∧
    (s.predict features fo so).2.is_trained = s.is_trained ∧
    (s.predict features fo so).2.anomaly_count = s.anomaly_count ∧
    (s.predict features fo so).2.anomaly_history = s.anomaly_history ∧
    (s.predict features fo so).2.feature_count = s.feature_count := by
  unfold AnomalyDetector.predict
  rcases hrej with h0 | ⟨n, hn, hlen⟩
  · simp [h0]
  · by_cases h0 : features.length = 0
    · simp [h0, hn]
    · simp [h0, hn, hlen]

/-- C2 counterexample: `reset()` does not forget the recorded feature
dimension.  After one accepted 1-dimensional prediction followed by
`reset()`, `feature_count` is still `some 1`, whereas a freshly constructed
detector has `feature_count = none` — so the reset detector is not in the
state of a fresh instance (a later 2-dimensional stream would be rejected
by the reset detector but accepted by a fresh one). -/
theorem reset_does_not_forget_feature_dimension :
    (AnomalyDetector.reset
        (((AnomalyDetector.init 50 0.7).predict [1] FitOutcome.okAll
            (ScoreOutcome.ok 0)).2)).feature_count = some 1 ∧
    (AnomalyDetector.init 50 0.7).feature_count = none ∧
    (AnomalyDetector.reset
        (((AnomalyDetector.init 50 0.7).predict [1] FitOutcome.okAll
            (ScoreOutcome.ok 0)).2)).feature_count
      ≠ (AnomalyDetector.init 50 0.7).feature_count := by
  refine ⟨?_, rfl, ?_⟩ <;>
    simp [AnomalyDetector.predict, AnomalyDetector.predictBody, AnomalyDetector.ingest,
      AnomalyDetector.reset, AnomalyDetector.init, dequeAppend]

/-- C2 (amended): `reset()` clears the buffer, the score history, the
prediction and anomaly counters and the trained flag (so counters restart
byte-for-byte like a fresh instance), but it retains the recorded feature
dimension (`feature_count`), and also the previously fitted scaler/ensemble
state and feature statistics. -/
theorem reset_clears_counters_keeps_dimension (s : AnomalyDetector) :
    (s.reset).data_buffer = [] ∧
    (s.reset).anomaly_history = [] ∧
    (s.reset).is_trained = false ∧
    (s.reset).prediction_count = 0 ∧
    (s.reset).anomaly_count = 0 ∧
    (s.reset).feature_count = s.feature_count ∧
    (s.reset).scaler_fit = s.scaler_fit ∧
    (s.reset).model_fit = s.model_fit ∧
    (s.reset).feature_means = s.feature_means ∧
    (s.reset).feature_stds = s.feature_stds ∧
    (s.reset).buffer_size = s.buffer_size ∧
    (s.reset).threshold = s.threshold := by
  simp [AnomalyDetector.reset]

lemma predictBody_cold (s : AnomalyDetector) (features : List ℝ)
    (fo : FitOutcome) (so : ScoreOutcome)
    (h : (dequeAppend s.buffer_size s.data_buffer features).length < 20) :
    s.predictBody features fo so
      = (statisticalAnomalyScore (dequeAppend s.buffer_size s.data_buffer features) features,
         { s with
             data_buffer := dequeAppend s.buffer_size s.data_buffer features,
             anomaly_history := dequeAppend 100 s.anomaly_history
               (statisticalAnomalyScore (dequeAppend s.buffer_size s.data_buffer features)
                  features) }) := by
  unfold AnomalyDetector.predictBody
  simp [AnomalyDetector.ingest, h]

/-- C4: cold start and the training gate.  First part: any accepted
prediction for which the buffer (after appending the query) still holds
fewer than 20 samples returns exactly the standalone statistical scorer's
value on that buffer and query.  Second part: `update_model` with fewer
than 20 buffered samples is a no-op returning the state unchanged (in
particular the trained flag and all model state are untouched). -/
theorem cold_start_statistical_and_training_gate :
    (∀ (s : AnomalyDetector) (features : List ℝ) (fo : FitOutcome) (so : ScoreOutcome),
        features.length ≠ 0 →
        (s.feature_count = none ∨ s.feature_count = some features.length) →
        (dequeAppend s.buffer_size s.data_buffer features).length < 20 →
        (s.predict features fo so).1
          = statisticalAnomalyScore (dequeAppend s.buffer_size s.data_buffer features)
              features) ∧
    (∀ (s : AnomalyDetector) (o : FitOutcome),
        s.data_buffer.length < 20 → s.update_model o = s) := by
  constructor
  · intro s features fo so h1 h2 h3
    unfold AnomalyDetector.predict
    dsimp only
    rw [if_neg h1]
    rcases h2 with h2 | h2
    · simp only [h2]
      rw [predictBody_cold _ _ _ _ (by simpa using h3)]
    · simp only [h2, ne_eq, not_true_eq_false, if_false, ite_not]
      rw [predictBody_cold _ _ _ _ (by simpa using h3)]
  · intro s o h
    unfold AnomalyDetector.update_model
    rw [if_pos h]

/-- Witness for C4 at concrete inputs: the very first prediction of a fresh
detector is the statistical score of the singleton buffer, and
`update_model` on a fresh (empty-buffer) detector changes nothing. -/
theorem cold_start_statistical_and_training_gate_witness :
    (((AnomalyDetector.init 50 0.7).predict [1, 2] FitOutcome.okAll (ScoreOutcome.ok 0)).1
        = statisticalAnomalyScore
            (dequeAppend (AnomalyDetector.init 50 0.7).buffer_size
              (AnomalyDetector.init 50 0.7).data_buffer [1, 2]) [1, 2]) ∧
    (AnomalyDetector.init 50 0.7).update_model FitOutcome.failAtModelFit
      = AnomalyDetector.init 50 0.7 := by
  constructor
  · exact cold_start_statistical_and_training_gate.1 (AnomalyDetector.init 50 0.7) [1, 2]
      FitOutcome.okAll (ScoreOutcome.ok 0) (by norm_num) (Or.inl rfl)
      (by simp [AnomalyDetector.init, dequeAppend])
  · exact cold_start_statistical_and_training_gate.2 (AnomalyDetector.init 50 0.7)
      FitOutcome.failAtModelFit (by simp [AnomalyDetector.init])

/-- C9: every `predict` call increments the prediction counter by exactly
one, including calls rejected for an empty vector or a dimension mismatch;
rejected calls leave the buffer, trained flag, anomaly counter and score
history unchanged; and `get_statistics` computes the anomaly rate with the
total prediction counter (which counts rejected samples) as denominator. -/
theorem predict_counts_rejected_samples :
    (∀ (s : AnomalyDetector) (features : List ℝ) (fo : FitOutcome) (so : ScoreOutcome),
        (s.predict features fo so).2.prediction_count = s.prediction_count + 1) ∧
    (∀ (s : AnomalyDetector) (features : List ℝ) (fo : FitOutcome) (so : ScoreOutcome),
        (features.length = 0 ∨ ∃ n, s.feature_count = some n ∧ features.length ≠ n) →
        (s.predict features fo so).2.data_buffer = s.data_buffer ∧
        (s.predict features fo so).2.is_trained = s.is_trained ∧
        (s.predict features fo so).2.anomaly_count = s.anomaly_count ∧
        (s.predict features fo so).2.anomaly_history = s.anomaly_history) ∧
    (∀ s : AnomalyDetector, 0 < s.prediction_count →
        (s.get_statistics).anomaly_rate = (s.anomaly_count : ℝ) / s.prediction_count) := by
  refine ⟨?_, ?_, ?_⟩
  · intro s features fo so
    unfold AnomalyDetector.predict
    dsimp only
    split
    · rfl
    · split
      · rw [predictBody_prediction_count]
      · split
        · rfl
        · rw [predictBody_prediction_count]
  · intro s features fo so hrej
    have h := predict_rejected_state s features fo so hrej
    exact ⟨h.2.1, h.2.2.1, h.2.2.2.1, h.2.2.2.2.1⟩
  · intro s h
    unfold AnomalyDetector.get_statistics
    simp [h]

/-- Witness for C9 at a concrete input: an empty-vector prediction on a
fresh detector bumps the counter to 1 and leaves the rest untouched, and
the resulting statistics divide by that bumped counter. -/
theorem predict_counts_rejected_samples_witness :
    (((AnomalyDetector.init 50 0.7).predict [] FitOutcome.okAll
        (ScoreOutcome.ok 0)).2.prediction_count = 0 + 1) ∧
    (((AnomalyDetector.init 50 0.7).predict [] FitOutcome.okAll
        (ScoreOutcome.ok 0)).2.data_buffer = []) ∧
    ((((AnomalyDetector.init 50 0.7).predict [] FitOutcome.okAll
        (ScoreOutcome.ok 0)).2.get_statistics).anomaly_rate = (0 : ℝ) / 1) := by
  have h1 := (predict_counts_rejected_samples.1 (AnomalyDetector.init 50 0.7) []
    FitOutcome.okAll (ScoreOutcome.ok 0))
  have h2 := (predict_counts_rejected_samples.2.1 (AnomalyDetector.init 50 0.7) []
    FitOutcome.okAll (ScoreOutcome.ok 0) (Or.inl rfl)).1
  have h3 := predict_counts_rejected_samples.2.2
    (((AnomalyDetector.init 50 0.7).predict [] FitOutcome.okAll (ScoreOutcome.ok 0)).2)
    (by rw [h1]; norm_num)
  refine ⟨h1, by simpa [AnomalyDetector.init] using h2, ?_⟩
  rw [h3, h1]
  have h4 := (predict_rejected_state (AnomalyDetector.init 50 0.7) []
    FitOutcome.okAll (ScoreOutcome.ok 0) (Or.inl rfl)).2.2.2.1
  rw [h4]
  simp [AnomalyDetector.init]

/-- A trained detector whose rolling buffer has moved on since the last
successful training round: the scaler and the ensemble were both fitted on
an older snapshot (20 rows of `[1]`), while the buffer now holds 20 rows of
`[0]`.  This is the situation in which the service's periodic
`update_model()` call (every 100 processed samples in `main.py`) retrains
an already-trained detector. -/
noncomputable def trainedDriftedDetector : AnomalyDetector where
  buffer_size := 50
  threshold := 0.7
  data_buffer := List.replicate 20 [0]
  scaler_fit := some (List.replicate 20 [1])
  model_fit := some (List.replicate 20 [1])
  is_trained := true
  feature_count := some 1
  prediction_count := 30
  anomaly_count := 0
  anomaly_history := []
  feature_means := some [1]
  feature_stds := some [0]

/-- C3 counterexample: a fitting failure is neither flag-preserving nor
atomic.  On `trainedDriftedDetector` (trained, `is_trained = true`), a
failure raised by the ensemble fit — after the scaler was already refit in
place — leaves `is_trained = false` (not "as it was"), and leaves the
scaler reflecting the new training round (the current buffer) while the
ensemble still reflects the older one. -/
theorem update_model_failure_not_atomic :
    trainedDriftedDetector.is_trained = true ∧
    (trainedDriftedDetector.update_model FitOutcome.failAtModelFit).is_trained = false ∧
    (trainedDriftedDetector.update_model FitOutcome.failAtModelFit).scaler_fit
      = some (List.replicate 20 [0]) ∧
    (trainedDriftedDetector.update_model FitOutcome.failAtModelFit).model_fit
      = some (List.replicate 20 [1]) ∧
    (trainedDriftedDetector.update_model FitOutcome.failAtModelFit).scaler_fit
      ≠ (trainedDriftedDetector.update_model FitOutcome.failAtModelFit).model_fit := by
  have hlen : ¬ (trainedDriftedDetector.data_buffer.length < 20) := by
    simp [trainedDriftedDetector]
  refine ⟨rfl, ?_, ?_, ?_, ?_⟩
  · unfold AnomalyDetector.update_model
    rw [if_neg hlen]
  · unfold AnomalyDetector.update_model
    rw [if_neg hlen]
    rfl
  · unfold AnomalyDetector.update_model
    rw [if_neg hlen]
    rfl
  · unfold AnomalyDetector.update_model
    rw [if_neg hlen]
    dsimp only
    intro h
    have h01 : (List.replicate 20 ([0] : List ℝ)) = List.replicate 20 [1] := by
      have h2 : some (List.replicate 20 ([0] : List ℝ)) = some (List.replicate 20 [1]) := h
      exact Option.some.inj h2
    have := congrArg (fun l => l.headD []) h01
    simp at this

/-- C3 (amended): when the internal fitting work fails, `update_model` does
not raise, but it sets `is_trained := false` regardless of the flag's prior
value, and — depending on where the failure occurred — the in-place scaler
update may already have happened, leaving the scaler on the new training
round while the ensemble keeps an older one.  Only a fully successful call
swaps in scaler and ensemble together (both fitted on the current buffer)
and sets `is_trained := true`. -/
theorem update_model_failure_marks_untrained :
    (∀ (s : AnomalyDetector) (o : FitOutcome), 20 ≤ s.data_buffer.length →
        o ≠ FitOutcome.okAll → (s.update_model o).is_trained = false) ∧
    (∀ s : AnomalyDetector, 20 ≤ s.data_buffer.length →
        (s.update_model FitOutcome.okAll).is_trained = true ∧
        (s.update_model FitOutcome.okAll).scaler_fit = some s.data_buffer ∧
        (s.update_model FitOutcome.okAll).model_fit = some s.data_buffer) := by
  constructor
  · intro s o h ho
    unfold AnomalyDetector.update_model
    rw [if_neg (Nat.not_lt.2 h)]
    cases o with
    | okAll => exact absurd rfl ho
    | failAtScalerFit => rfl
    | failAtTransform => rfl
    | failAtModelFit => rfl
    | failAfterTrained => rfl
  · intro s h
    unfold AnomalyDetector.update_model
    rw [if_neg (Nat.not_lt.2 h)]
    exact ⟨rfl, rfl, rfl⟩

/-- Witness for C3's amended theorem at a concrete input: on
`trainedDriftedDetector`, a failure at the scaler-transform stage marks the
detector untrained, and a fully successful retrain swaps both objects to
the current buffer. -/
theorem update_model_failure_marks_untrained_witness :
    ((trainedDriftedDetector.update_model FitOutcome.failAtTransform).is_trained = false) ∧
    ((trainedDriftedDetector.update_model FitOutcome.okAll).is_trained = true ∧
     (trainedDriftedDetector.update_model FitOutcome.okAll).scaler_fit
       = some trainedDriftedDetector.data_buffer ∧
     (trainedDriftedDetector.update_model FitOutcome.okAll).model_fit
       = some trainedDriftedDetector.data_buffer) := by
  have hlen : 20 ≤ trainedDriftedDetector.data_buffer.length := by
    simp [trainedDriftedDetector]
  exact ⟨update_model_failure_marks_untrained.1 trainedDriftedDetector
      FitOutcome.failAtTransform hlen (by simp),
    update_model_failure_marks_untrained.2 trainedDriftedDetector hlen⟩

/-- C6 counterexample: the statistical scorer's gate is off by one with
respect to the claim.  With exactly 4 historical samples (a buffer of 5
rows, the query last), the claim demands a score of 0.0, but the code only
gates on `len(buffer) < 5` — it computes the z-score formula and here
returns 1, not 0. -/
theorem stat_scorer_gate_off_by_one :
    (List.dropLast [[(0 : ℝ)], [0], [0], [0], [1]]).length < 5 ∧
    statisticalAnomalyScore [[(0 : ℝ)], [0], [0], [0], [1]] [1] = 1 ∧
    statisticalAnomalyScore [[(0 : ℝ)], [0], [0], [0], [1]] [1] ≠ 0 := by
  have hm : npMean [(0 : ℝ), 0, 0, 0] = 0 := by
    unfold npMean
    norm_num
  have hsd : npStd [(0 : ℝ), 0, 0, 0] = 0 := by
    unfold npStd
    rw [show List.map (fun x => (x - npMean [(0 : ℝ), 0, 0, 0]) ^ 2) [(0 : ℝ), 0, 0, 0]
          = [(0 : ℝ), 0, 0, 0] by rw [hm]; norm_num,
      hm, Real.sqrt_zero]
  have hval : statisticalAnomalyScore [[(0 : ℝ)], [0], [0], [0], [1]] [1] = 1 := by
    unfold statisticalAnomalyScore zScores statDim col epsStd listMax0
    norm_num [List.range_succ, hm, hsd, max_eq_left, min_eq_right]
  exact ⟨by simp, hval, by rw [hval]; norm_num⟩

/-- The statistical scorer as the spec describes it (§4.2): input is the
query vector and the historical samples (buffer contents excluding the
query); per feature of the query, mean and standard deviation (+1e-6) over
the history, absolute z-score of the query value, maximum across features,
mapped by `min (maxZ / 3) 1`.  The insufficient-data gate is stated over
the historical samples, with the bound amended from the spec's 5 to the 4
the code enforces. -/
noncomputable def specStatScorer (historical : List (List ℝ)) (query : List ℝ) : ℝ :=
  if historical.length < 4 then 0
  else
    min
      (listMax0 (query.enum.map fun p =>
          |p.2 - npMean (col historical p.1)| / (npStd (col historical p.1) + epsStd)) / 3)
      1

lemma enum_map_eq_range_map (q : List ℝ) (g : ℕ → ℝ → ℝ) :
    q.enum.map (fun p => g p.1 p.2) = (List.range q.length).map fun j => g j (q.getD j 0) := by
  apply List.ext_getElem
  · simp
  · intro i h1 h2
    simp only [List.getElem_map, List.getElem_enum, List.getElem_range]
    rw [List.getD_eq_getElem q 0 (by simpa using h1)]

/-- C6 (amended): on every dimension-consistent input (all buffer rows have
the query's length — the invariant `predict` maintains), the code's
statistical scorer equals the spec-described scorer applied to the buffer
with the query row dropped, where the insufficient-data gate fires for
fewer than 4 (not 5) historical samples: 4 historical samples already get
the z-score formula, and the score is `min (maxZ / 3) 1` otherwise. -/
theorem statistical_scorer_matches_spec (buffer : List (List ℝ)) (query : List ℝ)
    (hdim : ∀ r ∈ buffer, r.length = query.length) :
    statisticalAnomalyScore buffer query = specStatScorer buffer.dropLast query := by
  by_cases h5 : buffer.length < 5
  · unfold statisticalAnomalyScore specStatScorer
    rw [if_pos h5, if_pos (by simp [List.length_dropLast]; omega)]
  · have hlen : buffer.dropLast.length = buffer.length - 1 := List.length_dropLast buffer
    have hne : buffer.dropLast.length ≠ 0 := by omega
    unfold statisticalAnomalyScore specStatScorer
    rw [if_neg h5, if_neg hne, if_neg (show ¬buffer.dropLast.length < 4 by omega)]
    have hdims : statDim buffer.dropLast = query.length := by
      rcases hdl : buffer.dropLast with _ | ⟨r, t⟩
      · rw [hdl] at hne
        exact absurd rfl hne
      · have hr : r ∈ buffer := List.dropLast_subset buffer (by rw [hdl]; exact List.mem_cons_self r t)
        simpa [statDim] using hdim r hr
    unfold zScores
    rw [enum_map_eq_range_map query
      (fun j x => |x - npMean (col buffer.dropLast j)| / (npStd (col buffer.dropLast j) + epsStd)),
      hdims]

/-- Witness for C6's amended theorem at a concrete dimension-consistent
input (the counterexample buffer: 4 historical rows plus the query). -/
theorem statistical_scorer_matches_spec_witness :
    (∀ r ∈ [[(0 : ℝ)], [0], [0], [0], [1]], r.length = List.length [(1 : ℝ)]) ∧
    statisticalAnomalyScore [[(0 : ℝ)], [0], [0], [0], [1]] [1]
      = specStatScorer (List.dropLast [[(0 : ℝ)], [0], [0], [0], [1]]) [1] := by
  refine ⟨by simp, statistical_scorer_matches_spec _ _ (by simp)⟩

/-! ### The trained scoring path -/

/-- The detector scores with the trained ensemble on this call: it was
already trained on entry, or the buffer just reached full capacity and the
in-call retrain succeeded. -/
def trainedAtScoring (s : AnomalyDetector) (features : List ℝ) (fo : FitOutcome) : Prop :=
  s.is_trained = true ∨
    (s.buffer_size ≤ (dequeAppend s.buffer_size s.data_buffer features).length ∧
      fo = FitOutcome.okAll)

lemma afterAutoTrain_trained_iff (x : AnomalyDetector) (fo : FitOutcome)
    (h20 : 20 ≤ x.data_buffer.length) :
    (x.afterAutoTrain fo).is_trained = true
      ↔ (x.is_trained = true ∨
          (x.buffer_size ≤ x.data_buffer.length ∧ fo = FitOutcome.okAll)) := by
  unfold AnomalyDetector.afterAutoTrain
  by_cases hc : x.is_trained = false ∧ x.buffer_size ≤ x.data_buffer.length
  · rw [if_pos hc]
    unfold AnomalyDetector.update_model
    rw [if_neg (Nat.not_lt.2 h20)]
    cases fo with
    | okAll => simp [hc.1, hc.2]
    | failAtScalerFit => simp [hc.1]
    | failAtTransform => simp [hc.1]
    | failAtModelFit => simp [hc.1]
    | failAfterTrained => simp [hc.1]
  · rw [if_neg hc]
    constructor
    · exact fun h => Or.inl h
    · intro h
      rcases h with h | ⟨hbs, _⟩
      · exact h
      · cases htr : x.is_trained with
        | false => exact absurd ⟨htr, hbs⟩ hc
        | true => rfl

lemma predict_accepted (s : AnomalyDetector) (features : List ℝ)
    (fo : FitOutcome) (so : ScoreOutcome)
    (h1 : features.length ≠ 0)
    (h2 : s.feature_count = none ∨ s.feature_count = some features.length) :
    s.predict features fo so
      = AnomalyDetector.predictBody
          { s with prediction_count := s.prediction_count + 1,
                   feature_count := some features.length } features fo so := by
  unfold AnomalyDetector.predict
  dsimp only
  rw [if_neg h1]
  rcases h2 with h2 | h2
  · simp only [h2]
  · simp only [h2, ne_eq, not_true_eq_false, if_false, ite_not]

lemma predictBody_trained_ok (x : AnomalyDetector) (features : List ℝ)
    (fo : FitOutcome) (d : ℝ)
    (h20 : 20 ≤ (dequeAppend x.buffer_size x.data_buffer features).length)
    (htr : ((x.ingest features).afterAutoTrain fo).is_trained = true) :
    (x.predictBody features fo (ScoreOutcome.ok d)).1
      = 0.7 * normalizeScore d
        + 0.3 * statisticalAnomalyScore (dequeAppend x.buffer_size x.data_buffer features)
            features := by
  unfold AnomalyDetector.predictBody
  dsimp only
  rw [if_neg (by simpa [AnomalyDetector.ingest] using Nat.not_lt.2 h20), if_pos htr]
  dsimp only
  rw [(afterAutoTrain_preserves _ fo).2.2.2.1]
  rfl

lemma predictBody_trained_fail (x : AnomalyDetector) (features : List ℝ) (fo : FitOutcome)
    (h20 : 20 ≤ (dequeAppend x.buffer_size x.data_buffer features).length)
    (htr : ((x.ingest features).afterAutoTrain fo).is_trained = true) :
    (x.predictBody features fo ScoreOutcome.fail).1
      = statisticalAnomalyScore (dequeAppend x.buffer_size x.data_buffer features) features ∧
    (x.predictBody features fo ScoreOutcome.fail).2.anomaly_history = x.anomaly_history ∧
    (x.predictBody features fo ScoreOutcome.fail).2.anomaly_count = x.anomaly_count := by
  unfold AnomalyDetector.predictBody
  dsimp only
  rw [if_neg (by simpa [AnomalyDetector.ingest] using Nat.not_lt.2 h20), if_pos htr]
  dsimp only
  refine ⟨?_, ?_, ?_⟩
  · rw [(afterAutoTrain_preserves _ fo).2.2.2.1]
    rfl
  · rw [(afterAutoTrain_preserves _ fo).2.2.1]
    rfl
  · rw [(afterAutoTrain_preserves _ fo).2.1]
    rfl

lemma predictBody_records_history (x : AnomalyDetector) (features : List ℝ)
    (fo : FitOutcome) (so : ScoreOutcome)
    (hok : so ≠ ScoreOutcome.fail ∨
      (dequeAppend x.buffer_size x.data_buffer features).length < 20 ∨
      ((x.ingest features).afterAutoTrain fo).is_trained = false) :
    (x.predictBody features fo so).2.anomaly_history
      = dequeAppend 100 x.anomaly_history (x.predictBody features fo so).1 := by
  unfold AnomalyDetector.predictBody
  dsimp only
  split
  · rfl
  · rename_i hge
    split
    · rename_i htr
      cases so with
      | ok d =>
          dsimp only
          rw [(afterAutoTrain_preserves _ fo).2.2.1]
          rfl
      | fail =>
          rcases hok with h | h | h
          · exact absurd rfl h
          · exact absurd (by simpa [AnomalyDetector.ingest] using h) hge
          · rw [htr] at h
            exact absurd h (by simp)
    · dsimp only
      rw [(afterAutoTrain_preserves _ fo).2.2.1]
      rfl

lemma normalizeScore_eq_sigmoid (d : ℝ) :
    normalizeScore d = 1 / (1 + Real.exp (-10 * -d)) := by
  unfold normalizeScore
  dsimp only
  have hpos : (0 : ℝ) < 1 + Real.exp (-10 * -d) := by positivity
  have hle : 1 / (1 + Real.exp (-10 * -d)) ≤ 1 := by
    rw [div_le_one hpos]
    linarith [Real.exp_pos (-10 * -d)]
  have hge : 0 ≤ 1 / (1 + Real.exp (-10 * -d)) := by positivity
  rw [max_eq_left hge, min_eq_left hle]

/-- C7: every trained-path prediction that completes without internal
failure returns `0.7 * normalized + 0.3 * statistical`, where `normalized`
is the logistic transform `1 / (1 + exp (-10 * (-d)))` of the ensemble's
decision value `d` (the clip to `[0,1]` in the code is the identity on the
sigmoid's range) and `statistical` is the statistical scorer's result on
the same vector and buffer. -/
theorem trained_path_blends_scores (s : AnomalyDetector) (features : List ℝ)
    (fo : FitOutcome) (d : ℝ)
    (h1 : features.length ≠ 0)
    (h2 : s.feature_count = none ∨ s.feature_count = some features.length)
    (h20 : 20 ≤ (dequeAppend s.buffer_size s.data_buffer features).length)
    (htr : trainedAtScoring s features fo) :
    (s.predict features fo (ScoreOutcome.ok d)).1
      = 0.7 * (1 / (1 + Real.exp (-10 * -d)))
        + 0.3 * statisticalAnomalyScore (dequeAppend s.buffer_size s.data_buffer features)
            features := by
  rw [predict_accepted s features fo _ h1 h2]
  have hbody := predictBody_trained_ok
    ({ s with prediction_count := s.prediction_count + 1,
              feature_count := some features.length })
    features fo d h20 ((afterAutoTrain_trained_iff _ fo h20).2 htr)
  rw [hbody, normalizeScore_eq_sigmoid]

/-- Witness for C7 at a concrete input: a trained detector with a
1-dimensional, 20-sample buffer scoring the vector `[5]` with decision
value `2`. -/
theorem trained_path_blends_scores_witness :
    List.length [(5 : ℝ)] ≠ 0 ∧
    trainedDriftedDetector.feature_count = some (List.length [(5 : ℝ)]) ∧
    20 ≤ (dequeAppend trainedDriftedDetector.buffer_size
            trainedDriftedDetector.data_buffer [5]).length ∧
    trainedAtScoring trainedDriftedDetector [5] FitOutcome.okAll ∧
    (trainedDriftedDetector.predict [5] FitOutcome.okAll (ScoreOutcome.ok 2)).1
      = 0.7 * (1 / (1 + Real.exp (-10 * -2)))
        + 0.3 * statisticalAnomalyScore
            (dequeAppend trainedDriftedDetector.buffer_size
              trainedDriftedDetector.data_buffer [5]) [5] := by
  have h20 : 20 ≤ (dequeAppend trainedDriftedDetector.buffer_size
      trainedDriftedDetector.data_buffer [5]).length := by
    simp [trainedDriftedDetector, dequeAppend]
  exact ⟨by norm_num, rfl, h20, Or.inl rfl,
    trained_path_blends_scores trainedDriftedDetector [5] FitOutcome.okAll 2
      (by norm_num) (Or.inr rfl) h20 (Or.inl rfl)⟩

/-- C10: when the trained scoring path fails internally, `predict` returns
the statistical fallback score but does not append it to the recent-score
history and does not increment the anomaly counter (whatever the score's
relation to the threshold); every accepted non-failing scoring path
(cold start, untrained fallback, trained success) appends the returned
score to the bounded history. -/
theorem trained_failure_skips_history :
    (∀ (s : AnomalyDetector) (features : List ℝ) (fo : FitOutcome),
        features.length ≠ 0 →
        (s.feature_count = none ∨ s.feature_count = some features.length) →
        20 ≤ (dequeAppend s.buffer_size s.data_buffer features).length →
        trainedAtScoring s features fo →
        (s.predict features fo ScoreOutcome.fail).1
          = statisticalAnomalyScore (dequeAppend s.buffer_size s.data_buffer features)
              features ∧
        (s.predict features fo ScoreOutcome.fail).2.anomaly_history = s.anomaly_history ∧
        (s.predict features fo ScoreOutcome.fail).2.anomaly_count = s.anomaly_count) ∧
    (∀ (s : AnomalyDetector) (features : List ℝ) (fo : FitOutcome) (so : ScoreOutcome),
        features.length ≠ 0 →
        (s.feature_count = none ∨ s.feature_count = some features.length) →
        (so = ScoreOutcome.fail →
          (dequeAppend s.buffer_size s.data_buffer features).length < 20 ∨
          ¬ trainedAtScoring s features fo) →
        (s.predict features fo so).2.anomaly_history
          = dequeAppend 100 s.anomaly_history (s.predict features fo so).1) := by
  constructor
  · intro s features fo h1 h2 h20 htr
    rw [predict_accepted s features fo _ h1 h2]
    exact predictBody_trained_fail _ _ _ h20 ((afterAutoTrain_trained_iff _ fo h20).2 htr)
  · intro s features fo so h1 h2 hok
    rw [predict_accepted s features fo _ h1 h2]
    apply predictBody_records_history
    cases so with
    | ok d => exact Or.inl (by simp)
    | fail =>
        rcases hok rfl with h | h
        · exact Or.inr (Or.inl h)
        · by_cases h20 : 20 ≤ (dequeAppend s.buffer_size s.data_buffer features).length
          · refine Or.inr (Or.inr ?_)
            have h20x : 20 ≤ (AnomalyDetector.ingest
                { s with prediction_count := s.prediction_count + 1,
                         feature_count := some features.length }
                features).data_buffer.length := h20
            have hne : ¬ ((AnomalyDetector.ingest
                { s with prediction_count := s.prediction_count + 1,
                         feature_count := some features.length }
                features).afterAutoTrain fo).is_trained = true :=
              fun hvt => h ((afterAutoTrain_trained_iff _ fo h20x).1 hvt)
            exact (Bool.not_eq_true _) ▸ hne
          · exact Or.inr (Or.inl (Nat.lt_of_not_le h20))

/-- Witness for C10 at concrete inputs: on the trained detector, a failing
trained-path call returns the statistical score and leaves history and
anomaly counter untouched, while the same call with a successful decision
value appends its score to the history. -/
theorem trained_failure_skips_history_witness :
    ((trainedDriftedDetector.predict [5] FitOutcome.okAll ScoreOutcome.fail).1
        = statisticalAnomalyScore
            (dequeAppend trainedDriftedDetector.buffer_size
              trainedDriftedDetector.data_buffer [5]) [5] ∧
     (trainedDriftedDetector.predict [5] FitOutcome.okAll
        ScoreOutcome.fail).2.anomaly_history = trainedDriftedDetector.anomaly_history ∧
     (trainedDriftedDetector.predict [5] FitOutcome.okAll
        ScoreOutcome.fail).2.anomaly_count = trainedDriftedDetector.anomaly_count) ∧
    (trainedDriftedDetector.predict [5] FitOutcome.okAll
        (ScoreOutcome.ok 2)).2.anomaly_history
      = dequeAppend 100 trainedDriftedDetector.anomaly_history
          (trainedDriftedDetector.predict [5] FitOutcome.okAll (ScoreOutcome.ok 2)).1 := by
  have h20 : 20 ≤ (dequeAppend trainedDriftedDetector.buffer_size
      trainedDriftedDetector.data_buffer [5]).length := by
    simp [trainedDriftedDetector, dequeAppend]
  exact ⟨trained_failure_skips_history.1 trainedDriftedDetector [5] FitOutcome.okAll
      (by norm_num) (Or.inr rfl) h20 (Or.inl rfl),
    trained_failure_skips_history.2 trainedDriftedDetector [5] FitOutcome.okAll
      (ScoreOutcome.ok 2) (by norm_num) (Or.inr rfl) (by intro h; cases h)⟩

/-- C8: frame routing of the stream session's message handler, which is a
total function (the Python body is wrapped in `try/except`, so no inbound
frame terminates the receive loop): an undecodable frame is skipped as a
caught decode error; a decoded `"connection"`-typed object is logged only
and never forwarded; a decoded object carrying both a timestamp and an
orientation field and not typed `"connection"` is forwarded to the
registered data handler — and nothing else is ever forwarded; every other
frame is ignored (unknown type, or a caught handling error for non-object
payloads). -/
theorem message_dispatch_routing :
    (handleMessage InboundFrame.malformed = HandleAction.decodeErrorSkipped) ∧
    (∀ ts orr : Bool,
        handleMessage (InboundFrame.obj (some "connection") ts orr)
          = HandleAction.connectionLogged) ∧
    (∀ t : Option String, t ≠ some "connection" →
        handleMessage (InboundFrame.obj t true true) = HandleAction.forwardedToHandler) ∧
    (∀ (t : Option String) (ts orr : Bool),
        handleMessage (InboundFrame.obj t ts orr) = HandleAction.forwardedToHandler →
        t ≠ some "connection" ∧ ts = true ∧ orr = true) ∧
    (∀ (t : Option String) (ts orr : Bool), t ≠ some "connection" →
        (ts = false ∨ orr = false) →
        handleMessage (InboundFrame.obj t ts orr) = HandleAction.ignoredUnknown) ∧
    (handleMessage InboundFrame.nonObject = HandleAction.handlingErrorCaught) := by
  refine ⟨rfl, ?_, ?_, ?_, ?_, rfl⟩
  · intro ts orr
    simp [handleMessage]
  · intro t ht
    simp [handleMessage, ht]
  · intro t ts orr h
    simp only [handleMessage] at h
    by_cases hc : t = some "connection"
    · rw [if_pos hc] at h
      simp at h
    · rw [if_neg hc] at h
      by_cases hb : (ts && orr) = true
      · have hb' : ts = true ∧ orr = true := by simpa using hb
        exact ⟨hc, hb'.1, hb'.2⟩
      · rw [if_neg hb] at h
        simp at h
  · intro t ts orr ht hf
    have hb : (ts && orr) = false := by
      rcases hf with h | h <;> simp [h]
    simp only [handleMessage]
    rw [if_neg ht, hb]
    rfl

/-- Witness for C8 at concrete frames: an object with timestamp and
orientation and no type field is forwarded; dropping the timestamp flag
makes it ignored. -/
theorem message_dispatch_routing_witness :
    ((none : Option String) ≠ some "connection" ∧
     handleMessage (InboundFrame.obj none true true) = HandleAction.forwardedToHandler) ∧
    handleMessage (InboundFrame.obj none false true) = HandleAction.ignoredUnknown := by
  exact ⟨⟨by simp, message_dispatch_routing.2.2.1 none (by simp)⟩,
    message_dispatch_routing.2.2.2.2.1 none false true (by simp) (Or.inl rfl)⟩

end SensorFusion
